import Mathlib

/-!
Shallow embedding of `numba/dppl/experimental_numpy_lowering_overload.py`.

Each lowering entry point (`dot_dppl`, `matmul_dppl`, `array_sum`,
`array_prod`, `array_argmax`, `array_argmin`, `array_argsort`, `array_cov`)
is modelled as a Lean function from the operand array types, the declared
return type and the runtime shapes to an `Outcome`: either the lowering
fails while emitting code (a compile-time Python exception, in which case no
runtime code exists at all), or it emits a straight-line runtime call
sequence, modelled as the trace of device / backend events that execute at
runtime, together with the runtime result (a value, or the runtime
exception that aborts the sequence — events after an aborting raise are not
in the trace, matching the generated error-return control flow).
-/

namespace DpplLowering

/-- An element dtype: its numba type name and its ABI item size in bytes. -/
structure Dtype where
  name : String
  itemsize : Nat
deriving DecidableEq, Repr

/-- Array memory layout tag, as in numba array types: `C` (row-major
contiguous), `F` (column-major contiguous), `A` (strided / any). -/
inductive Layout
  | C
  | F
  | A
deriving DecidableEq, Repr

/-- The compile-time array type: rank, element dtype and layout
(`types.Array(dtype, ndim, layout)`). -/
structure ArrayTy where
  ndim : Nat
  dtype : Dtype
  layout : Layout
deriving DecidableEq, Repr

/-- ABI size of the LLVM struct numba uses as the *value type of a whole
array* (meminfo, parent, nitems, itemsize, data pointers plus `ndim`-tuples
of shape and strides; 8 bytes per word on a 64-bit target).  The reduction
lowerings pass `aty.dtype` to `get_total_size_of_array`, but `matmul_dppl`
passes the whole array type `aty`, so its `get_abi_sizeof` is the size of
this struct, not of an element. -/
def ArrayTy.abiStructSize (ty : ArrayTy) : Nat :=
  (5 + 2 * ty.ndim) * 8

/-- Runtime device / host events emitted by a lowering, in execution order.
`q` is the queue handle a device call is issued against. -/
inductive Event
  /-- `DPPLQueueMgr_GetCurrentQueue` returning queue handle `q`. -/
  | getQueue (q : Nat)
  /-- `DPPLmalloc_shared(size, q)` returning device buffer id `buf`. -/
  | malloc (buf : Nat) (size : Nat) (q : Nat)
  /-- `DPPLQueue_Memcpy(q, dst, src, size)`. -/
  | memcpy (size : Nat) (q : Nat)
  /-- `DPPLfree_with_queue(buf, q)`. -/
  | freeBuf (buf : Nat) (q : Nat)
  /-- `get_dpnp_fn_ptr(fname, typeNames)` followed by the call through the
  resolved address (`call_dpnp`). -/
  | callDpnp (fname : String) (typeNames : List String)
  /-- `array_copy` of a non-contiguous operand made by `make_contiguous`. -/
  | copyArray
  /-- `context.nrt.decref` of one contiguity copy after the body of
  `make_contiguous`. -/
  | decref
  /-- `np.empty`/`np.arange` host allocation of a result array inside a
  `make_res` closure compiled by `compile_internal`. -/
  | allocHost (shape : List Nat) (dtypeName : String)
  /-- `builder.store(context.get_constant(sig.return_type, 0), out)`:
  zero-initialisation of the host result slot of the declared return type. -/
  | storeZero (retName : String)
deriving DecidableEq, Repr

/-- Failures of a lowering, compile-time or runtime. -/
inductive Err
  /-- `ValueError("incompatible array sizes for np.dot/np.matmul(a, b)")`. -/
  | shapeMismatch
  /-- `ValueError("Passed Empty array")`. -/
  | emptyInput
  /-- `OverflowError("array size too large to fit in C int")`. -/
  | overflowCInt
  /-- Python `NameError`/`UnboundLocalError`: the named variable is
  referenced but not bound in the enclosing function scope. -/
  | nameErr (v : String)
  /-- `ValueError("array dimension has to be 2 for np.matmul(a, b)")`. -/
  | dimensionErr
  /-- `assert 0` in `dot_dppl` for unsupported rank pairs. -/
  | assertFail
  /-- The spec taxonomy's UnsupportedRank failure (never raised by the
  source; used to state claims about it). -/
  | unsupportedRank
deriving DecidableEq, Repr

/-- Result value of one lowering's runtime sequence. -/
inductive ResVal
  /-- A scalar of the named (declared return) type. -/
  | scalar (tyName : String)
  /-- An array result with the given shape. -/
  | arr (shape : List Nat)
deriving DecidableEq, Repr

abbrev Trace := List Event

instance exceptDecEq {ε α : Type} [DecidableEq ε] [DecidableEq α] :
    DecidableEq (Except ε α) := fun a b =>
  match a, b with
  | Except.ok x, Except.ok y =>
      if h : x = y then isTrue (by rw [h])
      else isFalse (by intro hc; cases hc; exact h rfl)
  | Except.error x, Except.error y =>
      if h : x = y then isTrue (by rw [h])
      else isFalse (by intro hc; cases hc; exact h rfl)
  | Except.ok _, Except.error _ => isFalse (by intro hc; cases hc)
  | Except.error _, Except.ok _ => isFalse (by intro hc; cases hc)

/-- Outcome of one lowering invocation. -/
inductive Outcome
  /-- The lowering itself raised while emitting code: compilation of the
  call site fails and no runtime sequence exists. -/
  | compileErr (e : Err)
  /-- The lowering emitted code; at runtime the sequence performs `trace`
  and produces `result` (an aborting raise cuts the trace short). -/
  | runs (trace : Trace) (result : Except Err ResVal)
deriving DecidableEq, Repr

/-! ### `make_contiguous` (lines 14–36) -/

/-- The type substitution of `make_contiguous`: an operand whose layout is
already in `'CF'` passes through, a strided operand is replaced by a
row-major copy (`ty.copy(layout='C')`). -/
def contigTy (ty : ArrayTy) : ArrayTy :=
  if ty.layout = Layout.C ∨ ty.layout = Layout.F then ty
  else { ty with layout := Layout.C }

/-- Whether `make_contiguous` makes a copy of an operand of this type. -/
def makesCopy (ty : ArrayTy) : Bool :=
  !(decide (ty.layout = Layout.C ∨ ty.layout = Layout.F))

/-- Number of temporary copies `make_contiguous` introduces. -/
def numCopies (tys : List ArrayTy) : Nat :=
  (tys.filter makesCopy).length

/-- Wrap a lowering body in `make_contiguous`: the copies are emitted (and
at runtime executed) before the body; the `decref` of each copy is emitted
after the `yield`, with no `try/finally`, so at runtime it executes only
when the body's emitted code completes without raising. -/
def runContiguous (tys : List ArrayTy) (body : Trace × Except Err ResVal) :
    Outcome :=
  let c := numCopies tys
  match body with
  | (tr, Except.ok v) =>
      Outcome.runs (List.replicate c Event.copyArray ++ tr ++
        List.replicate c Event.decref) (Except.ok v)
  | (tr, Except.error e) =>
      Outcome.runs (List.replicate c Event.copyArray ++ tr) (Except.error e)

/-! ### `check_c_int` (lines 38–49) -/

def cIntMax : Nat := 2 ^ 31 - 1

/-- `check_c_int`: the emitted runtime check raising `OverflowError` when
`n` exceeds `2**31 - 1`. -/
def checkCInt (n : Nat) : Except Err Unit :=
  if cIntMax < n then Except.error Err.overflowCInt else Except.ok ()

/-! ### `get_total_size_of_array` (lines 70–74)

`builder.mul` of `nitems` with the ABI size happens on 64-bit machine
integers, so the product wraps modulo `2^64`; no overflow check guards it. -/

def totalSize (nitems itemsize : Nat) : Nat :=
  nitems * itemsize % 2 ^ 64

/-! ### Python values for the `dot_2_mv` shape check

In `dot_2_mv`'s `make_res`, the line `_n = b.shape` binds `_n` to the whole
shape *tuple* (there is no unpacking comma), and `_n != n` then compares a
tuple against an integer.  `PyVal` models just enough of Python's value
universe for that comparison: values of different kinds are always
unequal. -/

inductive PyVal
  | int (n : Nat)
  | tup (l : List Nat)
deriving DecidableEq, Repr

/-- Python `!=` on these values. -/
def pyNe (a b : PyVal) : Bool := a ≠ b

/-! ### `np.dot` rank-pair bodies (lines 143–297)

Each body returns the runtime trace of its emitted sequence together with
the runtime result; `dot_dppl` wraps them in `make_contiguous`.  The
runtime shapes are passed as lists (`ash`, `bsh`). -/

/-- `dot_2_vv` (lines 143–178): vector·vector.  Emits the `check_args`
length check, then `check_c_int` on the first operand's length, then the
`dpnp_dot` call; the result is the scalar loaded from the `out` slot.
`type_names` takes the dtype of *both* operands, then the return type. -/
def dot_2_vv (naty nbty : ArrayTy) (ret : String) (ash bsh : List Nat) :
    Trace × Except Err ResVal :=
  let size := ash.headD 0
  let m := ash.headD 0
  let n := bsh.headD 0
  if m ≠ n then ([], Except.error Err.shapeMismatch)
  else
    match checkCInt size with
    | Except.error e => ([], Except.error e)
    | Except.ok _ =>
        ([Event.callDpnp "dpnp_dot" [naty.dtype.name, nbty.dtype.name, ret]],
         Except.ok (ResVal.scalar ret))

/-- `dot_2_mm` (lines 181–217): matrix·matrix.  `make_res` checks the inner
dimensions and allocates the `(m, k)` result with the first operand's
dtype; then the `dpnp_matmul` call.  `type_names` takes only the first
operand's dtype, then the return type. -/
def dot_2_mm (naty nbty : ArrayTy) (ret : String) (ash bsh : List Nat) :
    Trace × Except Err ResVal :=
  let m := ash.headD 0
  let n := ash.getD 1 0
  let n2 := bsh.headD 0
  let k := bsh.getD 1 0
  if n2 ≠ n then ([], Except.error Err.shapeMismatch)
  else
    ([Event.allocHost [m, k] naty.dtype.name,
      Event.callDpnp "dpnp_matmul" [naty.dtype.name, ret]],
     Except.ok (ResVal.arr [m, k]))

/-- `dot_2_mv` (lines 220–257): matrix·vector.  In its `make_res`, the line
`_n = b.shape` binds `_n` to the whole shape tuple (no unpacking comma), so
`if _n != n` compares a tuple with an integer. -/
def dot_2_mv (naty nbty : ArrayTy) (ret : String) (ash bsh : List Nat) :
    Trace × Except Err ResVal :=
  let m := ash.headD 0
  let n := ash.getD 1 0
  let n' := PyVal.tup bsh
  if pyNe n' (PyVal.int n) then ([], Except.error Err.shapeMismatch)
  else
    ([Event.allocHost [m] naty.dtype.name,
      Event.callDpnp "dpnp_matmul" [naty.dtype.name, ret]],
     Except.ok (ResVal.arr [m]))

/-- `dot_2_vm` (lines 260–297): vector·matrix.  `make_res` checks the
vector length against the matrix's first dimension and allocates a `(k,)`
result. -/
def dot_2_vm (naty nbty : ArrayTy) (ret : String) (ash bsh : List Nat) :
    Trace × Except Err ResVal :=
  let m := ash.headD 0
  let n := bsh.headD 0
  let k := bsh.getD 1 0
  if m ≠ n then ([], Except.error Err.shapeMismatch)
  else
    ([Event.allocHost [k] naty.dtype.name,
      Event.callDpnp "dpnp_matmul" [naty.dtype.name, ret]],
     Except.ok (ResVal.arr [k]))

/-- `dot_dppl` (lines 300–321): dispatch on the operand ranks inside
`make_contiguous`; any other rank pair hits `assert 0`, a compile-time
failure. -/
def dot_dppl (aty bty : ArrayTy) (ret : String) (ash bsh : List Nat) :
    Outcome :=
  let naty := contigTy aty
  let nbty := contigTy bty
  if naty.ndim = 2 ∧ nbty.ndim = 2 then
    runContiguous [aty, bty] (dot_2_mm naty nbty ret ash bsh)
  else if naty.ndim = 2 ∧ nbty.ndim = 1 then
    runContiguous [aty, bty] (dot_2_mv naty nbty ret ash bsh)
  else if naty.ndim = 1 ∧ nbty.ndim = 2 then
    runContiguous [aty, bty] (dot_2_vm naty nbty ret ash bsh)
  else if naty.ndim = 1 ∧ nbty.ndim = 1 then
    runContiguous [aty, bty] (dot_2_vv naty nbty ret ash bsh)
  else Outcome.compileErr Err.assertFail

/-! ### `np.matmul` (lines 324–379) -/

/-- Compile-time binding of the name `sycl_queue` inside `matmul_dppl`'s
scope: unlike the reduction lowerings, `matmul_dppl` never calls
`get_sycl_queue` (nor otherwise assigns `sycl_queue`), so the lookup at its
first use (line 350, argument of `allocate_usm`) fails with a Python
`NameError` while the lowering is emitting code. -/
def matmulSyclQueue : Option Nat := none

/-- The body `matmul_dppl` would emit if `sycl_queue` were bound to queue
`q` (dead code in the source): stage both operands to USM buffers
(`get_total_size_of_array` is passed the whole array type `aty`, so the
sizes use the array-struct ABI size), allocate the result after the
runtime shape check, stage operand `b` a second time into a fresh buffer,
and call `dpnp_matmul` — with no `free_usm` anywhere. -/
def matmulBody (aty bty naty : ArrayTy) (ret : String) (ash bsh : List Nat)
    (q : Nat) : Trace × Except Err ResVal :=
  let m := ash.headD 0
  let n := ash.getD 1 0
  let n2 := bsh.headD 0
  let k := bsh.getD 1 0
  let tsa := totalSize ash.prod aty.abiStructSize
  let tsb := totalSize bsh.prod bty.abiStructSize
  let staged := [Event.malloc 0 tsa q, Event.memcpy tsa q,
                 Event.malloc 1 tsb q, Event.memcpy tsb q]
  if n2 ≠ n then (staged, Except.error Err.shapeMismatch)
  else
    (staged ++ [Event.allocHost [m, k] naty.dtype.name,
                Event.malloc 2 tsb q, Event.memcpy tsb q,
                Event.callDpnp "dpnp_matmul" [naty.dtype.name, ret]],
     Except.ok (ResVal.arr [m, k]))

/-- `matmul_dppl` (lines 324–379).  Inside `make_contiguous`: a rank pair
other than `[2, 2]` raises `ValueError` at compile time; otherwise the
first evaluation of the unbound name `sycl_queue` raises `NameError` at
compile time, so no runtime sequence is ever emitted and `call_dpnp` is
never reached. -/
def matmul_dppl (aty bty : ArrayTy) (ret : String) (ash bsh : List Nat) :
    Outcome :=
  let naty := contigTy aty
  let nbty := contigTy bty
  if ¬(naty.ndim = 2 ∧ nbty.ndim = 2) then
    Outcome.compileErr Err.dimensionErr
  else
    match matmulSyclQueue with
    | none => Outcome.compileErr (Err.nameErr "sycl_queue")
    | some q => runContiguous [aty, bty] (matmulBody aty bty naty ret ash bsh q)

/-! ### Reductions: `sum`/`prod` (382–435) and `argmax`/`argmin` (438–492) -/

/-- `common_sum_prod_impl` (lines 382–421).  The emitted runtime order:
`array_size_checker` raises on an empty operand before any device call;
otherwise get the current queue, allocate and fill a USM buffer for the
input (`nitems × sizeof(aty.dtype)` bytes), zero-store the host result slot
of the declared return type, allocate a USM result buffer of
`sizeof(aty.dtype)` bytes (the *input* dtype, not the return type), call
the backend with `type_names = [aty.dtype.name, "NONE"]`, copy
`sizeof(aty.dtype)` bytes back, and free both buffers. -/
def common_sum_prod_impl (d : Dtype) (ret : Dtype) (sh : List Nat)
    (fnType : String) : Outcome :=
  if sh.prod = 0 then Outcome.runs [] (Except.error Err.emptyInput)
  else
    let tsa := totalSize sh.prod d.itemsize
    Outcome.runs
      [Event.getQueue 0,
       Event.malloc 0 tsa 0, Event.memcpy tsa 0,
       Event.storeZero ret.name,
       Event.malloc 1 d.itemsize 0,
       Event.callDpnp fnType [d.name, "NONE"],
       Event.memcpy d.itemsize 0,
       Event.freeBuf 0 0, Event.freeBuf 1 0]
      (Except.ok (ResVal.scalar ret.name))

/-- `array_sum` (lines 425–428). -/
def array_sum (d : Dtype) (ret : Dtype) (sh : List Nat) : Outcome :=
  common_sum_prod_impl d ret sh "dpnp_sum"

/-- `array_prod` (lines 431–435). -/
def array_prod (d : Dtype) (ret : Dtype) (sh : List Nat) : Outcome :=
  common_sum_prod_impl d ret sh "dpnp_prod"

/-- `common_argmax_argmin_impl` (lines 438–477): like
`common_sum_prod_impl` but the USM result buffer and the copy back use
`sizeof(sig.return_type)`, and `type_names = [aty.dtype.name,
sig.return_type.name]`. -/
def common_argmax_argmin_impl (d : Dtype) (ret : Dtype) (sh : List Nat)
    (fnType : String) : Outcome :=
  if sh.prod = 0 then Outcome.runs [] (Except.error Err.emptyInput)
  else
    let tsa := totalSize sh.prod d.itemsize
    Outcome.runs
      [Event.getQueue 0,
       Event.malloc 0 tsa 0, Event.memcpy tsa 0,
       Event.storeZero ret.name,
       Event.malloc 1 ret.itemsize 0,
       Event.callDpnp fnType [d.name, ret.name],
       Event.memcpy ret.itemsize 0,
       Event.freeBuf 0 0, Event.freeBuf 1 0]
      (Except.ok (ResVal.scalar ret.name))

/-- `array_argmax` (lines 481–485): passes `"dpnp_argmax"`. -/
def array_argmax (d : Dtype) (ret : Dtype) (sh : List Nat) : Outcome :=
  common_argmax_argmin_impl d ret sh "dpnp_argmax"

/-- `array_argmin` (lines 488–492): also passes `"dpnp_argmax"` (sic, the
source's line 492). -/
def array_argmin (d : Dtype) (ret : Dtype) (sh : List Nat) : Outcome :=
  common_argmax_argmin_impl d ret sh "dpnp_argmax"

/-! ### `argsort` (495–520) and `cov` (523–572) -/

/-- `array_argsort` (lines 495–520): `make_res` allocates `np.arange(A.size)`
(an integer array of length `size`), then the `dpnp_argsort` call. -/
def array_argsort (aty : ArrayTy) (ret : String) (sh : List Nat) : Outcome :=
  let size := sh.headD 0
  Outcome.runs
    [Event.allocHost [size] "int64",
     Event.callDpnp "dpnp_argsort" [aty.dtype.name, ret]]
    (Except.ok (ResVal.arr [size]))

/-- `array_cov` (lines 523–572).  Rank 2: `make_2D_res` allocates an
`(m, m)` float64 result from the first dimension `m`; rank 1:
`make_1D_res` allocates a 1-element float64 result; any other rank takes
the `pass` branch, leaving `out` unbound, so `outary = make_array(...)(
..., out)` raises a Python `NameError`/`UnboundLocalError` at compile
time. -/
def array_cov (aty : ArrayTy) (ret : String) (sh : List Nat) : Outcome :=
  if aty.ndim = 2 then
    let m := sh.headD 0
    Outcome.runs
      [Event.allocHost [m, m] "float64",
       Event.callDpnp "dpnp_cov" [aty.dtype.name, ret]]
      (Except.ok (ResVal.arr [m, m]))
  else if aty.ndim = 1 then
    Outcome.runs
      [Event.allocHost [1] "float64",
       Event.callDpnp "dpnp_cov" [aty.dtype.name, ret]]
      (Except.ok (ResVal.arr [1]))
  else Outcome.compileErr (Err.nameErr "out")

/-! ### Observations on traces and outcomes -/

/-- Buffer ids of the device allocations in a trace, in order. -/
def allocIds (tr : Trace) : List Nat :=
  tr.filterMap fun e =>
    match e with
    | Event.malloc b _ _ => some b
    | _ => none

/-- Buffer ids of the device frees in a trace, in order. -/
def freeIds (tr : Trace) : List Nat :=
  tr.filterMap fun e =>
    match e with
    | Event.freeBuf b _ => some b
    | _ => none

/-- The queue a device event is issued against, if it is a device event. -/
def eventQueue : Event → Option Nat
  | Event.malloc _ _ q => some q
  | Event.memcpy _ q => some q
  | Event.freeBuf _ q => some q
  | _ => none

/-- Every device event in the trace is issued against queue `q`
(non-device events have no queue and pass trivially). -/
def sameQueue (tr : Trace) (q : Nat) : Prop :=
  ∀ e ∈ tr, (eventQueue e).getD q = q

/-- The alloc/free pairing discipline of the claim: each allocated device
buffer is freed exactly once (the freed ids are a permutation of the
pairwise-distinct allocated ids) and every device event uses queue 0, the
queue the lowering obtained.  Vacuous for a lowering that fails at compile
time, since then nothing ever allocates. -/
def devicePaired : Outcome → Prop
  | Outcome.compileErr _ => True
  | Outcome.runs tr _ =>
      (freeIds tr).Perm (allocIds tr) ∧ (allocIds tr).Nodup ∧ sameQueue tr 0

/-- The backend calls (`call_dpnp` name and type-name list) an outcome's
runtime sequence can ever perform. -/
def dpnpCalls : Outcome → List (String × List String)
  | Outcome.compileErr _ => []
  | Outcome.runs tr _ =>
      tr.filterMap fun e =>
        match e with
        | Event.callDpnp f ts => some (f, ts)
        | _ => none

/-- Number of contiguity copies executed in a trace. -/
def copyCount (tr : Trace) : Nat :=
  (tr.filter fun e => e = Event.copyArray).length

/-- Number of copy releases (`decref`) executed in a trace. -/
def decrefCount (tr : Trace) : Nat :=
  (tr.filter fun e => e = Event.decref).length

/-- Size argument of the first `DPPLQueue_Memcpy` in the runtime sequence. -/
def firstMemcpySize (o : Outcome) : Option Nat :=
  match o with
  | Outcome.compileErr _ => none
  | Outcome.runs tr _ =>
      tr.findSome? fun e =>
        match e with
        | Event.memcpy s _ => some s
        | _ => none

/-- Size argument of the last `DPPLQueue_Memcpy` in the runtime sequence
(the copy from the device result buffer back to the host slot). -/
def lastMemcpySize (o : Outcome) : Option Nat :=
  match o with
  | Outcome.compileErr _ => none
  | Outcome.runs tr _ =>
      tr.reverse.findSome? fun e =>
        match e with
        | Event.memcpy s _ => some s
        | _ => none

/-- Is an event device work (allocation, copy, backend invoke, or free)? -/
def isDeviceWork : Event → Bool
  | Event.malloc _ _ _ => true
  | Event.memcpy _ _ => true
  | Event.freeBuf _ _ => true
  | Event.callDpnp _ _ => true
  | _ => false

/-- The outcome performs no device work at runtime. -/
def noDeviceWork : Outcome → Prop
  | Outcome.compileErr _ => True
  | Outcome.runs tr _ => ∀ e ∈ tr, isDeviceWork e = false

/-- The outcome's runtime sequence aborts with error `e`. -/
def signalsError (o : Outcome) (e : Err) : Prop :=
  match o with
  | Outcome.runs _ (Except.error e2) => e2 = e
  | _ => False

/-- The outcome completes at runtime with a scalar of the named type. -/
def succeedsScalar (o : Outcome) (tyName : String) : Prop :=
  match o with
  | Outcome.runs _ (Except.ok (ResVal.scalar n)) => n = tyName
  | _ => False

/-- Shape of the array result when the outcome completes with one. -/
def resultShape (o : Outcome) : Option (List Nat) :=
  match o with
  | Outcome.runs _ (Except.ok (ResVal.arr s)) => some s
  | _ => none

/-- The outcome signals the spec taxonomy's unsupported-rank failure,
either while lowering or at runtime. -/
def signalsUnsupportedRank (o : Outcome) : Prop :=
  o = Outcome.compileErr Err.unsupportedRank ∨
    signalsError o Err.unsupportedRank

/-! ### Decidability of the observation predicates -/

instance instDecSameQueue (tr : Trace) (q : Nat) : Decidable (sameQueue tr q) :=
  List.decidableBAll _ tr

instance instDecDevicePaired (o : Outcome) : Decidable (devicePaired o) :=
  match o with
  | Outcome.compileErr _ => isTrue True.intro
  | Outcome.runs tr _ =>
      inferInstanceAs (Decidable ((freeIds tr).Perm (allocIds tr) ∧
        (allocIds tr).Nodup ∧ sameQueue tr 0))

instance instDecNoDeviceWork (o : Outcome) : Decidable (noDeviceWork o) :=
  match o with
  | Outcome.compileErr _ => isTrue True.intro
  | Outcome.runs tr _ => List.decidableBAll _ tr

instance instDecSignalsError (o : Outcome) (e : Err) :
    Decidable (signalsError o e) :=
  match o with
  | Outcome.runs _ (Except.error e2) => inferInstanceAs (Decidable (e2 = e))
  | Outcome.runs _ (Except.ok _) => isFalse id
  | Outcome.compileErr _ => isFalse id

instance instDecSucceedsScalar (o : Outcome) (s : String) :
    Decidable (succeedsScalar o s) :=
  match o with
  | Outcome.runs _ (Except.ok (ResVal.scalar n)) =>
      inferInstanceAs (Decidable (n = s))
  | Outcome.runs _ (Except.ok (ResVal.arr _)) => isFalse id
  | Outcome.runs _ (Except.error _) => isFalse id
  | Outcome.compileErr _ => isFalse id

instance instDecSignalsUnsupportedRank (o : Outcome) :
    Decidable (signalsUnsupportedRank o) :=
  inferInstanceAs (Decidable (_ ∨ _))

/-! ### Helper lemmas -/

theorem contigTy_ndim (ty : ArrayTy) : (contigTy ty).ndim = ty.ndim := by
  unfold contigTy
  split <;> rfl

theorem allocIds_append (a b : Trace) :
    allocIds (a ++ b) = allocIds a ++ allocIds b :=
  List.filterMap_append a b _

theorem freeIds_append (a b : Trace) :
    freeIds (a ++ b) = freeIds a ++ freeIds b :=
  List.filterMap_append a b _

theorem allocIds_replicate_copyArray (n : Nat) :
    allocIds (List.replicate n Event.copyArray) = [] := by
  simp [allocIds, List.filterMap_replicate]

theorem allocIds_replicate_decref (n : Nat) :
    allocIds (List.replicate n Event.decref) = [] := by
  simp [allocIds, List.filterMap_replicate]

theorem freeIds_replicate_copyArray (n : Nat) :
    freeIds (List.replicate n Event.copyArray) = [] := by
  simp [freeIds, List.filterMap_replicate]

theorem freeIds_replicate_decref (n : Nat) :
    freeIds (List.replicate n Event.decref) = [] := by
  simp [freeIds, List.filterMap_replicate]

theorem sameQueue_append {a b : Trace} {q : Nat}
    (ha : sameQueue a q) (hb : sameQueue b q) : sameQueue (a ++ b) q := by
  intro e he
  rcases List.mem_append.mp he with h | h
  · exact ha e h
  · exact hb e h

theorem sameQueue_replicate {e : Event} {q : Nat}
    (h : (eventQueue e).getD q = q) (n : Nat) :
    sameQueue (List.replicate n e) q := by
  intro x hx
  rw [List.eq_of_mem_replicate hx]
  exact h

/-- A `make_contiguous`-wrapped body whose own trace allocates and frees no
device buffer (and stays on queue 0) yields a paired outcome: the
contiguity copies and decrefs are host events. -/
theorem devicePaired_runContiguous (tys : List ArrayTy)
    (body : Trace × Except Err ResVal)
    (h1 : allocIds body.1 = []) (h2 : freeIds body.1 = [])
    (h3 : sameQueue body.1 0) :
    devicePaired (runContiguous tys body) := by
  rcases body with ⟨tr, r⟩
  simp only at h1 h2 h3
  cases r with
  | ok v =>
      simp only [runContiguous, devicePaired]
      refine ⟨?_, ?_, ?_⟩
      · simp [allocIds_append, freeIds_append, h1, h2,
          allocIds_replicate_copyArray, allocIds_replicate_decref,
          freeIds_replicate_copyArray, freeIds_replicate_decref]
      · simp [allocIds_append, h1, allocIds_replicate_copyArray,
          allocIds_replicate_decref]
      · exact sameQueue_append
          (sameQueue_append (sameQueue_replicate rfl _) h3)
          (sameQueue_replicate rfl _)
  | error e =>
      simp only [runContiguous, devicePaired]
      refine ⟨?_, ?_, ?_⟩
      · simp [allocIds_append, freeIds_append, h1, h2,
          allocIds_replicate_copyArray, freeIds_replicate_copyArray]
      · simp [allocIds_append, h1, allocIds_replicate_copyArray]
      · exact sameQueue_append (sameQueue_replicate rfl _) h3

/-- A trace whose computed allocation and free lists coincide and stay on
queue 0 satisfies the pairing discipline. -/
theorem devicePaired_of_computed {tr : Trace} {r : Except Err ResVal}
    (h1 : freeIds tr = allocIds tr) (h2 : (allocIds tr).Nodup)
    (h3 : sameQueue tr 0) : devicePaired (Outcome.runs tr r) :=
  ⟨h1 ▸ List.Perm.refl _, h2, h3⟩

theorem dot_2_mm_clean (naty nbty : ArrayTy) (ret : String)
    (ash bsh : List Nat) :
    allocIds (dot_2_mm naty nbty ret ash bsh).1 = [] ∧
    freeIds (dot_2_mm naty nbty ret ash bsh).1 = [] ∧
    sameQueue (dot_2_mm naty nbty ret ash bsh).1 0 := by
  unfold dot_2_mm
  dsimp only
  split <;> exact ⟨rfl, rfl, by simp [sameQueue, eventQueue]⟩

theorem dot_2_mv_clean (naty nbty : ArrayTy) (ret : String)
    (ash bsh : List Nat) :
    allocIds (dot_2_mv naty nbty ret ash bsh).1 = [] ∧
    freeIds (dot_2_mv naty nbty ret ash bsh).1 = [] ∧
    sameQueue (dot_2_mv naty nbty ret ash bsh).1 0 := by
  unfold dot_2_mv
  dsimp only
  split <;> exact ⟨rfl, rfl, by simp [sameQueue, eventQueue]⟩

theorem dot_2_vm_clean (naty nbty : ArrayTy) (ret : String)
    (ash bsh : List Nat) :
    allocIds (dot_2_vm naty nbty ret ash bsh).1 = [] ∧
    freeIds (dot_2_vm naty nbty ret ash bsh).1 = [] ∧
    sameQueue (dot_2_vm naty nbty ret ash bsh).1 0 := by
  unfold dot_2_vm
  dsimp only
  split <;> exact ⟨rfl, rfl, by simp [sameQueue, eventQueue]⟩

theorem dot_2_vv_clean (naty nbty : ArrayTy) (ret : String)
    (ash bsh : List Nat) :
    allocIds (dot_2_vv naty nbty ret ash bsh).1 = [] ∧
    freeIds (dot_2_vv naty nbty ret ash bsh).1 = [] ∧
    sameQueue (dot_2_vv naty nbty ret ash bsh).1 0 := by
  unfold dot_2_vv
  dsimp only
  split
  · exact ⟨rfl, rfl, by simp [sameQueue, eventQueue]⟩
  · split <;> exact ⟨rfl, rfl, by simp [sameQueue, eventQueue]⟩

/-! ### The claims -/

/-- C1: For every lowering of a supported operation, every device buffer
allocated during that lowering (via `DPPLmalloc_shared`) is released by
exactly one matching `DPPLfree_with_queue` on the same queue before the
lowering returns its result.  The reduction lowerings allocate two buffers
and free both on queue 0; the `dot`, `argsort` and `cov` lowerings pass
host pointers and allocate no device buffer; `matmul_dppl` fails with the
unbound `sycl_queue` name before its first allocation can be issued, so it
never allocates at all. -/
theorem c1_device_alloc_free_paired (d ret : Dtype) (aty bty : ArrayTy)
    (r : String) (ash bsh sh : List Nat) :
    devicePaired (array_sum d ret sh) ∧
    devicePaired (array_prod d ret sh) ∧
    devicePaired (array_argmax d ret sh) ∧
    devicePaired (array_argmin d ret sh) ∧
    devicePaired (dot_dppl aty bty r ash bsh) ∧
    devicePaired (matmul_dppl aty bty r ash bsh) ∧
    devicePaired (array_argsort aty r sh) ∧
    devicePaired (array_cov aty r sh) := by
  refine ⟨?_, ?_, ?_, ?_, ?_, ?_, ?_, ?_⟩
  · unfold array_sum common_sum_prod_impl
    split
    · exact devicePaired_of_computed rfl List.nodup_nil (by simp [sameQueue])
    · exact devicePaired_of_computed rfl
        (by show ([0, 1] : List Nat).Nodup; decide)
        (by simp [sameQueue, eventQueue])
  · unfold array_prod common_sum_prod_impl
    split
    · exact devicePaired_of_computed rfl List.nodup_nil (by simp [sameQueue])
    · exact devicePaired_of_computed rfl
        (by show ([0, 1] : List Nat).Nodup; decide)
        (by simp [sameQueue, eventQueue])
  · unfold array_argmax common_argmax_argmin_impl
    split
    · exact devicePaired_of_computed rfl List.nodup_nil (by simp [sameQueue])
    · exact devicePaired_of_computed rfl
        (by show ([0, 1] : List Nat).Nodup; decide)
        (by simp [sameQueue, eventQueue])
  · unfold array_argmin common_argmax_argmin_impl
    split
    · exact devicePaired_of_computed rfl List.nodup_nil (by simp [sameQueue])
    · exact devicePaired_of_computed rfl
        (by show ([0, 1] : List Nat).Nodup; decide)
        (by simp [sameQueue, eventQueue])
  · unfold dot_dppl
    dsimp only
    split
    · exact devicePaired_runContiguous _ _ (dot_2_mm_clean _ _ _ _ _).1
        (dot_2_mm_clean _ _ _ _ _).2.1 (dot_2_mm_clean _ _ _ _ _).2.2
    · split
      · exact devicePaired_runContiguous _ _ (dot_2_mv_clean _ _ _ _ _).1
          (dot_2_mv_clean _ _ _ _ _).2.1 (dot_2_mv_clean _ _ _ _ _).2.2
      · split
        · exact devicePaired_runContiguous _ _ (dot_2_vm_clean _ _ _ _ _).1
            (dot_2_vm_clean _ _ _ _ _).2.1 (dot_2_vm_clean _ _ _ _ _).2.2
        · split
          · exact devicePaired_runContiguous _ _ (dot_2_vv_clean _ _ _ _ _).1
              (dot_2_vv_clean _ _ _ _ _).2.1 (dot_2_vv_clean _ _ _ _ _).2.2
          · exact True.intro
  · unfold matmul_dppl matmulSyclQueue
    dsimp only
    split
    · exact True.intro
    · exact True.intro
  · exact devicePaired_of_computed rfl List.nodup_nil
      (by simp [sameQueue, eventQueue, array_argsort])
  · unfold array_cov
    split
    · exact devicePaired_of_computed rfl List.nodup_nil
        (by simp [sameQueue, eventQueue])
    · split
      · exact devicePaired_of_computed rfl List.nodup_nil
          (by simp [sameQueue, eventQueue])
      · exact True.intro

/-- An empty operand makes `common_sum_prod_impl`'s size check raise before
any device call. -/
theorem common_sum_prod_empty (d ret : Dtype) (sh : List Nat) (fn : String)
    (h : sh.prod = 0) :
    signalsError (common_sum_prod_impl d ret sh fn) Err.emptyInput ∧
    noDeviceWork (common_sum_prod_impl d ret sh fn) := by
  unfold common_sum_prod_impl
  rw [if_pos h]
  exact ⟨rfl, by intro e he; cases he⟩

/-- A non-empty operand makes `common_sum_prod_impl` complete with a scalar
of the declared return type. -/
theorem common_sum_prod_nonempty (d ret : Dtype) (sh : List Nat)
    (fn : String) (h : ¬sh.prod = 0) :
    succeedsScalar (common_sum_prod_impl d ret sh fn) ret.name := by
  unfold common_sum_prod_impl
  rw [if_neg h]
  rfl

/-- An empty operand makes `common_argmax_argmin_impl`'s size check raise
before any device call. -/
theorem common_argmax_argmin_empty (d ret : Dtype) (sh : List Nat)
    (fn : String) (h : sh.prod = 0) :
    signalsError (common_argmax_argmin_impl d ret sh fn) Err.emptyInput ∧
    noDeviceWork (common_argmax_argmin_impl d ret sh fn) := by
  unfold common_argmax_argmin_impl
  rw [if_pos h]
  exact ⟨rfl, by intro e he; cases he⟩

/-- A non-empty operand makes `common_argmax_argmin_impl` complete with a
scalar of the declared return type. -/
theorem common_argmax_argmin_nonempty (d ret : Dtype) (sh : List Nat)
    (fn : String) (h : ¬sh.prod = 0) :
    succeedsScalar (common_argmax_argmin_impl d ret sh fn) ret.name := by
  unfold common_argmax_argmin_impl
  rw [if_neg h]
  rfl

/-- C4: Every reduction lowering (`sum`, `prod`, `argmax`, `argmin`) on an
array of size 0 signals the empty-input failure (`ValueError("Passed Empty
array")`) with no device work — no device allocation, copy, backend invoke
or free — performed; on a non-empty operand the result is a scalar of the
declared return type. -/
theorem c4_reduction_empty_input (d ret : Dtype) (sh : List Nat) :
    (sh.prod = 0 →
      (signalsError (array_sum d ret sh) Err.emptyInput ∧
        noDeviceWork (array_sum d ret sh)) ∧
      (signalsError (array_prod d ret sh) Err.emptyInput ∧
        noDeviceWork (array_prod d ret sh)) ∧
      (signalsError (array_argmax d ret sh) Err.emptyInput ∧
        noDeviceWork (array_argmax d ret sh)) ∧
      (signalsError (array_argmin d ret sh) Err.emptyInput ∧
        noDeviceWork (array_argmin d ret sh))) ∧
    (sh.prod ≠ 0 →
      succeedsScalar (array_sum d ret sh) ret.name ∧
      succeedsScalar (array_prod d ret sh) ret.name ∧
      succeedsScalar (array_argmax d ret sh) ret.name ∧
      succeedsScalar (array_argmin d ret sh) ret.name) := by
  constructor
  · intro h
    exact ⟨common_sum_prod_empty d ret sh _ h,
      common_sum_prod_empty d ret sh _ h,
      common_argmax_argmin_empty d ret sh _ h,
      common_argmax_argmin_empty d ret sh _ h⟩
  · intro h
    exact ⟨common_sum_prod_nonempty d ret sh _ h,
      common_sum_prod_nonempty d ret sh _ h,
      common_argmax_argmin_nonempty d ret sh _ h,
      common_argmax_argmin_nonempty d ret sh _ h⟩

/-- Witness for C4 at concrete inputs: `shape [0]` (empty) and `[2]`
(non-empty), float64 operand, float64/int64 return. -/
theorem c4_reduction_empty_input_witness :
    (signalsError (array_sum ⟨"float64", 8⟩ ⟨"float64", 8⟩ [0])
        Err.emptyInput ∧
      noDeviceWork (array_sum ⟨"float64", 8⟩ ⟨"float64", 8⟩ [0])) ∧
    succeedsScalar (array_argmin ⟨"float64", 8⟩ ⟨"int64", 8⟩ [2]) "int64" :=
  ⟨((c4_reduction_empty_input ⟨"float64", 8⟩ ⟨"float64", 8⟩ [0]).1 rfl).1,
    ((c4_reduction_empty_input ⟨"float64", 8⟩ ⟨"int64", 8⟩ [2]).2
      (by decide)).2.2.2⟩

/-- C7: The byte size passed to the first device memcpy of each reduction
lowering of an `N`-element array with `S`-byte elements equals `N×S`
(the product is formed on 64-bit integers with no preceding overflow
check, so it is exact whenever `N×S < 2^64`), and the 32-bit check
`check_c_int` (used where a C `int` parameter is required) rejects exactly
the sizes exceeding `2^31 − 1`. -/
theorem c7_memcpy_size_and_cint_check (d ret : Dtype) (sh : List Nat)
    (h0 : sh.prod ≠ 0) (hfit : sh.prod * d.itemsize < 2 ^ 64) :
    firstMemcpySize (array_sum d ret sh) = some (sh.prod * d.itemsize) ∧
    firstMemcpySize (array_prod d ret sh) = some (sh.prod * d.itemsize) ∧
    firstMemcpySize (array_argmax d ret sh) = some (sh.prod * d.itemsize) ∧
    firstMemcpySize (array_argmin d ret sh) = some (sh.prod * d.itemsize) ∧
    (∀ n : Nat,
      checkCInt n = Except.error Err.overflowCInt ↔ 2 ^ 31 - 1 < n) := by
  have hs : totalSize sh.prod d.itemsize = sh.prod * d.itemsize := by
    unfold totalSize
    exact Nat.mod_eq_of_lt hfit
  refine ⟨?_, ?_, ?_, ?_, ?_⟩
  · unfold array_sum common_sum_prod_impl
    rw [if_neg h0]
    simp [firstMemcpySize, hs]
  · unfold array_prod common_sum_prod_impl
    rw [if_neg h0]
    simp [firstMemcpySize, hs]
  · unfold array_argmax common_argmax_argmin_impl
    rw [if_neg h0]
    simp [firstMemcpySize, hs]
  · unfold array_argmin common_argmax_argmin_impl
    rw [if_neg h0]
    simp [firstMemcpySize, hs]
  · intro n
    by_cases hn : 2 ^ 31 - 1 < n <;> simp [checkCInt, cIntMax, hn]

/-- Witness for C7 at a 3-element float64 array: the staged size is
`3 × 8 = 24` bytes. -/
theorem c7_memcpy_size_and_cint_check_witness :
    ([3] : List Nat).prod ≠ 0 ∧
    ([3] : List Nat).prod * (Dtype.mk "float64" 8).itemsize < 2 ^ 64 ∧
    firstMemcpySize (array_sum ⟨"float64", 8⟩ ⟨"float64", 8⟩ [3]) =
      some 24 :=
  ⟨by decide, by decide,
    (c7_memcpy_size_and_cint_check ⟨"float64", 8⟩ ⟨"float64", 8⟩ [3]
      (by decide) (by decide)).1⟩

/-- C8: The argmin lowering passes the same backend operation name as the
argmax lowering — the source's `array_argmin` hands `"dpnp_argmax"` to
`common_argmax_argmin_impl` — so for identical operand and type names both
lowerings emit a call resolved from the same `(name, type_names)` key,
hence the same backend function address. -/
theorem c8_argmin_resolves_argmax_symbol (d ret : Dtype) (sh : List Nat) :
    dpnpCalls (array_argmin d ret sh) = dpnpCalls (array_argmax d ret sh) ∧
    (sh.prod ≠ 0 →
      dpnpCalls (array_argmin d ret sh) =
        [("dpnp_argmax", [d.name, ret.name])]) := by
  refine ⟨rfl, ?_⟩
  intro h
  unfold array_argmin common_argmax_argmin_impl
  rw [if_neg h]
  rfl

/-- Witness for C8 on a 3-element float64 array with int64 index return. -/
theorem c8_argmin_resolves_argmax_symbol_witness :
    dpnpCalls (array_argmin ⟨"float64", 8⟩ ⟨"int64", 8⟩ [3]) =
      [("dpnp_argmax", ["float64", "int64"])] :=
  (c8_argmin_resolves_argmax_symbol ⟨"float64", 8⟩ ⟨"int64", 8⟩ [3]).2
    (by decide)

/-- C10: In the sum and prod lowerings the device result buffer is
allocated with `sizeof(aty.dtype)` — the *input* element size, not the
declared return type's — the host result slot is zero-initialised before
the backend call, and the copy back from device to host also transfers
`sizeof(aty.dtype)` bytes; so when the declared return type is wider, only
the input element type's byte count of the zeroed slot is overwritten. -/
theorem c10_sum_prod_result_staging (d ret : Dtype) (sh : List Nat)
    (h : sh.prod ≠ 0) :
    (∃ pre post,
      array_sum d ret sh =
        Outcome.runs (pre ++ Event.storeZero ret.name ::
            Event.malloc 1 d.itemsize 0 ::
            Event.callDpnp "dpnp_sum" [d.name, "NONE"] :: post)
          (Except.ok (ResVal.scalar ret.name)) ∧
      post = [Event.memcpy d.itemsize 0,
        Event.freeBuf 0 0, Event.freeBuf 1 0]) ∧
    (∃ pre post,
      array_prod d ret sh =
        Outcome.runs (pre ++ Event.storeZero ret.name ::
            Event.malloc 1 d.itemsize 0 ::
            Event.callDpnp "dpnp_prod" [d.name, "NONE"] :: post)
          (Except.ok (ResVal.scalar ret.name)) ∧
      post = [Event.memcpy d.itemsize 0,
        Event.freeBuf 0 0, Event.freeBuf 1 0]) ∧
    lastMemcpySize (array_sum d ret sh) = some d.itemsize ∧
    lastMemcpySize (array_prod d ret sh) = some d.itemsize := by
  refine ⟨?_, ?_, ?_, ?_⟩
  · refine ⟨[Event.getQueue 0,
      Event.malloc 0 (totalSize sh.prod d.itemsize) 0,
      Event.memcpy (totalSize sh.prod d.itemsize) 0], _, ?_, rfl⟩
    unfold array_sum common_sum_prod_impl
    rw [if_neg h]
    rfl
  · refine ⟨[Event.getQueue 0,
      Event.malloc 0 (totalSize sh.prod d.itemsize) 0,
      Event.memcpy (totalSize sh.prod d.itemsize) 0], _, ?_, rfl⟩
    unfold array_prod common_sum_prod_impl
    rw [if_neg h]
    rfl
  · unfold array_sum common_sum_prod_impl
    rw [if_neg h]
    rfl
  · unfold array_prod common_sum_prod_impl
    rw [if_neg h]
    rfl

/-- Witness for C10 with a float32 input and a wider float64 return: the
result buffer and copy-back sizes are 4 bytes, the input item size. -/
theorem c10_sum_prod_result_staging_witness :
    ([2] : List Nat).prod ≠ 0 ∧
    lastMemcpySize (array_sum ⟨"float32", 4⟩ ⟨"float64", 8⟩ [2]) = some 4 :=
  ⟨by decide,
    (c10_sum_prod_result_staging ⟨"float32", 4⟩ ⟨"float64", 8⟩ [2]
      (by decide)).2.2.1⟩

theorem copyCount_append (a b : Trace) :
    copyCount (a ++ b) = copyCount a + copyCount b := by
  simp [copyCount, List.filter_append]

theorem decrefCount_append (a b : Trace) :
    decrefCount (a ++ b) = decrefCount a + decrefCount b := by
  simp [decrefCount, List.filter_append]

theorem copyCount_replicate_copy (n : Nat) :
    copyCount (List.replicate n Event.copyArray) = n := by
  simp [copyCount, List.filter_replicate]

theorem copyCount_replicate_decref (n : Nat) :
    copyCount (List.replicate n Event.decref) = 0 := by
  simp [copyCount, List.filter_replicate]

theorem decrefCount_replicate_copy (n : Nat) :
    decrefCount (List.replicate n Event.copyArray) = 0 := by
  simp [decrefCount, List.filter_replicate]

theorem decrefCount_replicate_decref (n : Nat) :
    decrefCount (List.replicate n Event.decref) = n := by
  simp [decrefCount, List.filter_replicate]

/-- Count bookkeeping for a `make_contiguous`-wrapped body that itself
performs no copy and no decref: the wrapped trace holds exactly the
contiguity copies, and the decrefs run only on a non-raising exit. -/
theorem runContiguous_counts (tys : List ArrayTy)
    (body : Trace × Except Err ResVal)
    (hb : copyCount body.1 = 0 ∧ decrefCount body.1 = 0)
    (tr : Trace) (res : Except Err ResVal)
    (h : runContiguous tys body = Outcome.runs tr res) :
    copyCount tr = numCopies tys ∧
    (res.isOk = true → decrefCount tr = copyCount tr) ∧
    (res.isOk = false → decrefCount tr = 0) := by
  rcases body with ⟨btr, br⟩
  rcases hb with ⟨hb1, hb2⟩
  simp only at hb1 hb2
  cases br with
  | ok v =>
      rcases Outcome.runs.inj h with ⟨htr, hres⟩
      subst htr
      subst hres
      refine ⟨?_, fun _ => ?_, fun hfalse => Bool.noConfusion hfalse⟩
      · rw [copyCount_append, copyCount_append, copyCount_replicate_copy,
          copyCount_replicate_decref, hb1]
        omega
      · rw [copyCount_append, copyCount_append, copyCount_replicate_copy,
          copyCount_replicate_decref, hb1,
          decrefCount_append, decrefCount_append,
          decrefCount_replicate_copy, decrefCount_replicate_decref, hb2]
        omega
  | error e =>
      rcases Outcome.runs.inj h with ⟨htr, hres⟩
      subst htr
      subst hres
      refine ⟨?_, fun htrue => Bool.noConfusion htrue, fun _ => ?_⟩
      · rw [copyCount_append, copyCount_replicate_copy, hb1]
        omega
      · rw [decrefCount_append, decrefCount_replicate_copy, hb2]

theorem dot_2_mm_counts (naty nbty : ArrayTy) (ret : String)
    (ash bsh : List Nat) :
    copyCount (dot_2_mm naty nbty ret ash bsh).1 = 0 ∧
    decrefCount (dot_2_mm naty nbty ret ash bsh).1 = 0 := by
  unfold dot_2_mm
  dsimp only
  split <;> exact ⟨rfl, rfl⟩

theorem dot_2_mv_counts (naty nbty : ArrayTy) (ret : String)
    (ash bsh : List Nat) :
    copyCount (dot_2_mv naty nbty ret ash bsh).1 = 0 ∧
    decrefCount (dot_2_mv naty nbty ret ash bsh).1 = 0 := by
  unfold dot_2_mv
  dsimp only
  split <;> exact ⟨rfl, rfl⟩

theorem dot_2_vm_counts (naty nbty : ArrayTy) (ret : String)
    (ash bsh : List Nat) :
    copyCount (dot_2_vm naty nbty ret ash bsh).1 = 0 ∧
    decrefCount (dot_2_vm naty nbty ret ash bsh).1 = 0 := by
  unfold dot_2_vm
  dsimp only
  split <;> exact ⟨rfl, rfl⟩

theorem dot_2_vv_counts (naty nbty : ArrayTy) (ret : String)
    (ash bsh : List Nat) :
    copyCount (dot_2_vv naty nbty ret ash bsh).1 = 0 ∧
    decrefCount (dot_2_vv naty nbty ret ash bsh).1 = 0 := by
  unfold dot_2_vv
  dsimp only
  split
  · exact ⟨rfl, rfl⟩
  · split <;> exact ⟨rfl, rfl⟩

/-- C2 counterexample: `np.dot` on two strided (layout `A`) rank-1 float64
operands of mismatched lengths 2 and 3.  `make_contiguous` substitutes two
contiguous copies; the emitted length check raises at runtime; the
`decref`s, emitted only after the `yield`, never execute — so the lowering
exits with an error having released neither copy, falsifying
release-on-every-exit-path. -/
theorem c2_counterexample_error_path_leaks :
    dot_dppl ⟨1, ⟨"float64", 8⟩, Layout.A⟩ ⟨1, ⟨"float64", 8⟩, Layout.A⟩
        "float64" [2] [3] =
      Outcome.runs [Event.copyArray, Event.copyArray]
        (Except.error Err.shapeMismatch) ∧
    copyCount [Event.copyArray, Event.copyArray] = 2 ∧
    decrefCount [Event.copyArray, Event.copyArray] = 0 := by
  decide

/-- C2 (amended): every substituted contiguous copy made for a `np.dot`
lowering is released (`decref`) when the lowering body completes normally;
when the lowering exits with an error, none of the copies is released —
the release is guaranteed only on the success path. -/
theorem c2_amended_copy_release (aty bty : ArrayTy) (ret : String)
    (ash bsh : List Nat) (tr : Trace) (res : Except Err ResVal)
    (h : dot_dppl aty bty ret ash bsh = Outcome.runs tr res) :
    copyCount tr = numCopies [aty, bty] ∧
    (res.isOk = true → decrefCount tr = copyCount tr) ∧
    (res.isOk = false → decrefCount tr = 0) := by
  unfold dot_dppl at h
  dsimp only at h
  split at h
  · exact runContiguous_counts _ _ (dot_2_mm_counts _ _ _ _ _) tr res h
  · split at h
    · exact runContiguous_counts _ _ (dot_2_mv_counts _ _ _ _ _) tr res h
    · split at h
      · exact runContiguous_counts _ _ (dot_2_vm_counts _ _ _ _ _) tr res h
      · split at h
        · exact runContiguous_counts _ _ (dot_2_vv_counts _ _ _ _ _) tr res h
        · exact absurd h (by simp)

/-- Witness for C2 (amended): a successful strided vector dot (lengths 2
and 2) makes two copies and releases both. -/
theorem c2_amended_copy_release_witness :
    copyCount [Event.copyArray, Event.copyArray,
        Event.callDpnp "dpnp_dot" ["float64", "float64", "float64"],
        Event.decref, Event.decref] =
      numCopies [⟨1, ⟨"float64", 8⟩, Layout.A⟩,
        ⟨1, ⟨"float64", 8⟩, Layout.A⟩] ∧
    ((Except.ok (ResVal.scalar "float64") : Except Err ResVal).isOk = true →
      decrefCount [Event.copyArray, Event.copyArray,
        Event.callDpnp "dpnp_dot" ["float64", "float64", "float64"],
        Event.decref, Event.decref] =
      copyCount [Event.copyArray, Event.copyArray,
        Event.callDpnp "dpnp_dot" ["float64", "float64", "float64"],
        Event.decref, Event.decref]) ∧
    ((Except.ok (ResVal.scalar "float64") : Except Err ResVal).isOk = false →
      decrefCount [Event.copyArray, Event.copyArray,
        Event.callDpnp "dpnp_dot" ["float64", "float64", "float64"],
        Event.decref, Event.decref] = 0) :=
  c2_amended_copy_release ⟨1, ⟨"float64", 8⟩, Layout.A⟩
    ⟨1, ⟨"float64", 8⟩, Layout.A⟩ "float64" [2] [2] _ _ (by decide)

/-- C3 (the code at the failing input): `np.matmul` on C-contiguous
float64 rank-2 operands with incompatible inner dimensions, shapes (2,3)
and (4,5), does not signal a shape mismatch — the lowering fails on the
unbound `sycl_queue` name before any shape validation can be emitted (and
had the queue been bound, the written sequence would stage both operands to
device buffers *before* the shape check).  For comparison, the `np.dot`
rank-(2,2) lowering at the same shapes raises the shape-mismatch error
with an empty runtime trace: no result buffer is allocated. -/
theorem c3_matmul_failing_input :
    matmul_dppl ⟨2, ⟨"float64", 8⟩, Layout.C⟩ ⟨2, ⟨"float64", 8⟩, Layout.C⟩
        "arrF64" [2, 3] [4, 5] =
      Outcome.compileErr (Err.nameErr "sycl_queue") ∧
    ¬ signalsError
        (matmul_dppl ⟨2, ⟨"float64", 8⟩, Layout.C⟩
          ⟨2, ⟨"float64", 8⟩, Layout.C⟩ "arrF64" [2, 3] [4, 5])
        Err.shapeMismatch ∧
    matmul_dppl ⟨2, ⟨"float64", 8⟩, Layout.C⟩ ⟨2, ⟨"float64", 8⟩, Layout.C⟩
        "arrF64" [2, 3] [4, 5] ≠
      Outcome.compileErr Err.shapeMismatch ∧
    dot_dppl ⟨2, ⟨"float64", 8⟩, Layout.C⟩ ⟨2, ⟨"float64", 8⟩, Layout.C⟩
        "arrF64" [2, 3] [4, 5] =
      Outcome.runs [] (Except.error Err.shapeMismatch) := by
  decide

/-- C5 (the code at the failing input): `np.dot` on a (2,3) float64 C
matrix and a length-3 float64 C vector — the shape-compatible case
n = n′ = 3 where the claim requires success with result shape (2,) —
raises the shape-mismatch `ValueError`: `dot_2_mv`'s `make_res` binds
`_n = b.shape` (the whole tuple `(3,)`, no unpacking comma, unlike the
correct `_n, = cgutils.unpack_tuple` one line below) and `(3,) != 3` is
always true in Python. -/
theorem c5_dot_mv_failing_input :
    dot_dppl ⟨2, ⟨"float64", 8⟩, Layout.C⟩ ⟨1, ⟨"float64", 8⟩, Layout.C⟩
        "arrF64" [2, 3] [3] =
      Outcome.runs [] (Except.error Err.shapeMismatch) := by
  decide

/-- C6 counterexample: `np.cov` on a rank-3 float64 operand does not
signal an unsupported-rank failure: the source's `else` branch is `pass`,
leaving `out` unbound, so the lowering dies with `NameError` on `out`. -/
theorem c6_counterexample_rank3 :
    array_cov ⟨3, ⟨"float64", 8⟩, Layout.C⟩ "arrF64" [2, 3, 4] =
      Outcome.compileErr (Err.nameErr "out") ∧
    ¬ signalsUnsupportedRank
        (array_cov ⟨3, ⟨"float64", 8⟩, Layout.C⟩ "arrF64" [2, 3, 4]) := by
  decide

/-- C6 (amended): a rank-1 operand yields a newly allocated 1-element
float64 result array; a rank-2 operand of shape (m,n) yields a newly
allocated m×m float64 result; an operand of any other rank makes the
lowering fail — but with an unbound-variable failure on the result name
`out`, not with a signalled unsupported-rank failure. -/
theorem c6_cov_result_shapes (aty : ArrayTy) (ret : String)
    (sh : List Nat) :
    (aty.ndim = 1 →
      array_cov aty ret sh =
        Outcome.runs [Event.allocHost [1] "float64",
          Event.callDpnp "dpnp_cov" [aty.dtype.name, ret]]
          (Except.ok (ResVal.arr [1]))) ∧
    (aty.ndim = 2 →
      array_cov aty ret sh =
        Outcome.runs [Event.allocHost [sh.headD 0, sh.headD 0] "float64",
          Event.callDpnp "dpnp_cov" [aty.dtype.name, ret]]
          (Except.ok (ResVal.arr [sh.headD 0, sh.headD 0]))) ∧
    (aty.ndim ≠ 1 → aty.ndim ≠ 2 →
      array_cov aty ret sh = Outcome.compileErr (Err.nameErr "out")) := by
  refine ⟨?_, ?_, ?_⟩
  · intro h1
    unfold array_cov
    rw [if_neg (by simp [h1]), if_pos h1]
  · intro h2
    unfold array_cov
    rw [if_pos h2]
  · intro h1 h2
    unfold array_cov
    rw [if_neg h2, if_neg h1]

/-- Witness for C6 (amended) at ranks 1, 2 and 3. -/
theorem c6_cov_result_shapes_witness :
    array_cov ⟨1, ⟨"float64", 8⟩, Layout.C⟩ "arrF64" [5] =
      Outcome.runs [Event.allocHost [1] "float64",
        Event.callDpnp "dpnp_cov" ["float64", "arrF64"]]
        (Except.ok (ResVal.arr [1])) ∧
    array_cov ⟨2, ⟨"float64", 8⟩, Layout.C⟩ "arrF64" [4, 7] =
      Outcome.runs [Event.allocHost [4, 4] "float64",
        Event.callDpnp "dpnp_cov" ["float64", "arrF64"]]
        (Except.ok (ResVal.arr [4, 4])) ∧
    array_cov ⟨3, ⟨"float64", 8⟩, Layout.C⟩ "arrF64" [2, 2, 2] =
      Outcome.compileErr (Err.nameErr "out") :=
  ⟨(c6_cov_result_shapes ⟨1, ⟨"float64", 8⟩, Layout.C⟩ "arrF64" [5]).1 rfl,
    (c6_cov_result_shapes ⟨2, ⟨"float64", 8⟩, Layout.C⟩ "arrF64"
      [4, 7]).2.1 rfl,
    (c6_cov_result_shapes ⟨3, ⟨"float64", 8⟩, Layout.C⟩ "arrF64"
      [2, 2, 2]).2.2 (by decide) (by decide)⟩

/-- C9: For every pair of rank-2 operands, the `np.matmul` lowering fails
while emitting code — its device allocations and copies go through the
queue-handle name `sycl_queue`, which is referenced but never bound in the
function (no get-current-queue call occurs there) — so the lowering raises
`NameError` at the first allocation's argument and can never reach a
backend symbol resolution or call. -/
theorem c9_matmul_unbound_queue (ad bd : Dtype) (al bl : Layout)
    (r : String) (ash bsh : List Nat) :
    matmul_dppl ⟨2, ad, al⟩ ⟨2, bd, bl⟩ r ash bsh =
      Outcome.compileErr (Err.nameErr "sycl_queue") ∧
    dpnpCalls (matmul_dppl ⟨2, ad, al⟩ ⟨2, bd, bl⟩ r ash bsh) = [] := by
  have h : matmul_dppl ⟨2, ad, al⟩ ⟨2, bd, bl⟩ r ash bsh =
      Outcome.compileErr (Err.nameErr "sycl_queue") := by
    unfold matmul_dppl
    simp [contigTy_ndim, matmulSyclQueue]
  exact ⟨h, by rw [h]; rfl⟩

end DpplLowering

